import Mathlib

/-!
Shallow embedding of the `PredictionEngine` class (analytics prediction
engine of the brain-training-app repository, source file
`src/unnamed/part_000`).

Modelling conventions:
* JavaScript numbers are modelled by `ℚ` where the source computes rational
  values (record fields, means, variances, trend slopes) and by `ℝ` where
  `Math.sqrt`, `Math.exp` or `Math.sin` enter a formula.
* `Math.round x` is `⌊x + 1/2⌋` (JavaScript rounds half toward +∞).
* `Date.now()` and record timestamps are explicit `ℚ` millisecond values
  threaded through the functions that read the clock.
* Fallible steps (the `fetch` of user data, a call of a method that does
  not exist) are modelled with `Except`; the `try/catch` of each public
  method is the corresponding `match`.
* Division by zero: Lean's `/` on `ℚ` returns `0` where JavaScript produces
  `NaN` Infinity. Wherever a claim turns on such a division, the separate
  checked (`Option`-valued) definitions below are used; they return `none`
  exactly where the source divides by zero.
-/

namespace PredictionEngine

/-- One game record as supplied by the record store (fields used by the
prediction engine). -/
structure GameRecord where
  gameType : String
  difficulty : String
  score : ℚ
  playTime : ℚ
  mistakes : ℚ
  completed : Bool
  timestamp : ℚ
deriving DecidableEq

instance : Inhabited GameRecord := ⟨⟨"", "", 0, 0, 0, false, 0⟩⟩

/-- User data as returned by `getUserData`: the list of game records. -/
structure UserData where
  games : List GameRecord
deriving DecidableEq

/-- Source `mean`: `array.reduce((sum, val) => sum + val, 0) / array.length`.
On the empty list JavaScript yields `NaN`; here `0/0 = 0` (the checked
variant `meanChecked` below tracks the `NaN` case). -/
def mean (l : List ℚ) : ℚ :=
  l.sum / l.length

/-- Source `variance`: population variance, same division convention as
`mean`. -/
def variance (l : List ℚ) : ℚ :=
  (l.map (fun v => (v - mean l) ^ 2)).sum / l.length

/-- Source `calculateTrend`: ordinary-least-squares slope of the values
against the index sequence `0, 1, ..., n-1`; `0` for fewer than two points
or a zero denominator. -/
def calculateTrend (l : List ℚ) : ℚ :=
  if l.length < 2 then 0
  else
    let n := l.length
    let x := (List.range n).map (fun i => (i : ℚ))
    let xMean := mean x
    let yMean := mean l
    let numerator := ((x.zip l).map (fun p => (p.1 - xMean) * (p.2 - yMean))).sum
    let denominator := (x.map (fun xi => (xi - xMean) ^ 2)).sum
    if denominator = 0 then 0 else numerator / denominator

/-- Source `calculateConsistency`: `max(0, 1 - sqrt(variance)/mean)`, and `1`
for fewer than two points. (`Math.sqrt` forces `ℝ`. The source would produce
`-Infinity` inside the `max` when `mean = 0 ≠ variance`; Lean's `x / 0 = 0`
convention differs there, and no claim below exercises that corner.) -/
noncomputable def calculateConsistency (l : List ℚ) : ℝ :=
  if l.length < 2 then 1
  else max 0 (1 - Real.sqrt (variance l) / (mean l : ℝ))

/-- Source `calculateRecentImprovement`: `mean(slice(-5)) - mean(slice(-10,-5))`
when at least 10 points exist, else `0`. -/
def calculateRecentImprovement (l : List ℚ) : ℚ :=
  if l.length < 10 then 0
  else mean (l.drop (l.length - 5)) - mean ((l.drop (l.length - 10)).take 5)

/-- Source `encodeDifficulty`: easy/medium/hard/expert to 1/2/3/4, anything
else to 2. -/
def encodeDifficulty (difficulty : String) : ℚ :=
  if difficulty = "easy" then 1
  else if difficulty = "medium" then 2
  else if difficulty = "hard" then 3
  else if difficulty = "expert" then 4
  else 2

/-- Source `calculateGameExperience`: number of records of the given game
type in the whole history. -/
def calculateGameExperience (userData : UserData) (gameType : String) : ℕ :=
  (userData.games.filter (fun g => g.gameType == gameType)).length

/-- Feature vector produced by `extractScoreFeatures`. -/
structure ScoreFeatures where
  averageScore : ℝ
  scoreTrend : ℝ
  scoreVariance : ℝ
  averagePlayTime : ℝ
  averageMistakes : ℝ
  completionRate : ℝ
  recentImprovement : ℝ
  consistency : ℝ
  difficultyLevel : ℝ
  gameExperience : ℝ

/-- Source `getDefaultFeatures`: the literal default score-feature vector. -/
def getDefaultFeatures : ScoreFeatures :=
  { averageScore := 50
    scoreTrend := 0
    scoreVariance := 25
    averagePlayTime := 300
    averageMistakes := 3
    completionRate := 0.7
    recentImprovement := 0
    consistency := 0.5
    difficultyLevel := 2
    gameExperience := 5 }

/-- Source `extractScoreFeatures`: filter the history to the target game
type, target difficulty and the 30-day window ending at `now`; with fewer
than 5 qualifying records return `getDefaultFeatures`, otherwise compute
the statistics. (`g.mistakes || 0` equals `g.mistakes` since the field is
total here.) -/
noncomputable def extractScoreFeatures (userData : UserData)
    (gameType difficulty : String) (now : ℚ) : ScoreFeatures :=
  let recentGames := userData.games.filter (fun g =>
    g.gameType == gameType && g.difficulty == difficulty &&
      decide (g.timestamp > now - 30 * 24 * 60 * 60 * 1000))
  if recentGames.length < 5 then getDefaultFeatures
  else
    let scores := recentGames.map (fun g => g.score)
    let playTimes := recentGames.map (fun g => g.playTime)
    let mistakes := recentGames.map (fun g => g.mistakes)
    { averageScore := (mean scores : ℝ)
      scoreTrend := (calculateTrend scores : ℝ)
      scoreVariance := (variance scores : ℝ)
      averagePlayTime := (mean playTimes : ℝ)
      averageMistakes := (mean mistakes : ℝ)
      completionRate :=
        ((recentGames.filter (fun g => g.completed)).length : ℝ) / (recentGames.length : ℝ)
      recentImprovement := (calculateRecentImprovement scores : ℝ)
      consistency := calculateConsistency scores
      difficultyLevel := (encodeDifficulty difficulty : ℝ)
      gameExperience := (calculateGameExperience userData gameType : ℝ) }

/-- Source `calculatePredictionConfidence`: weighted sum of four factors,
clamped from above by `Math.min(·, 1)` (note: no clamp from below). -/
noncomputable def calculatePredictionConfidence (f : ScoreFeatures) : ℝ :=
  min (f.consistency * 0.3 + min (f.gameExperience / 20) 1 * 0.2 +
    (1 - f.scoreVariance / 100) * 0.3 + min (f.recentImprovement / 10) 1 * 0.2) 1

/-- Source `calculatePredictionMargin`: `variance*0.5 * (1 + sqrt(horizon)*0.1)`. -/
noncomputable def calculatePredictionMargin (f : ScoreFeatures) (horizon : ℝ) : ℝ :=
  f.scoreVariance * 0.5 * (1 + Real.sqrt horizon * 0.1)

/-- JavaScript `Math.round`: nearest integer, halves toward positive
infinity. -/
noncomputable def jsRound (x : ℝ) : ℤ :=
  ⌊x + 1 / 2⌋

/-- Factor breakdown attached to a score prediction. -/
structure ScoreFactors where
  baseScore : ℝ
  trendEffect : ℝ
  improvementEffect : ℝ
  consistencyEffect : ℝ

/-- Result object of a score prediction. The default result of the catch
path carries an empty `factors` object, modelled as `none`. -/
structure ScorePrediction where
  prediction : ℤ
  confidence : ℝ
  rangeMin : ℤ
  rangeMax : ℤ
  factors : Option ScoreFactors
  horizon : ℝ

/-- Source `calculateScorePrediction`: base + trend·horizon +
improvement·min(horizon,7) + consistency·10, rounded and floored at 0,
with the confidence and the ± margin range. -/
noncomputable def calculateScorePrediction (f : ScoreFeatures) (horizon : ℝ) :
    ScorePrediction :=
  let baseScore := f.averageScore
  let trendEffect := f.scoreTrend * horizon
  let improvementEffect := f.recentImprovement * min horizon 7
  let consistencyEffect := f.consistency * 10
  let predictedScore := baseScore + trendEffect + improvementEffect + consistencyEffect
  let confidence := calculatePredictionConfidence f
  let margin := calculatePredictionMargin f horizon
  { prediction := max 0 (jsRound predictedScore)
    confidence := confidence
    rangeMin := max 0 (jsRound (predictedScore - margin))
    rangeMax := jsRound (predictedScore + margin)
    factors := some ⟨baseScore, trendEffect, improvementEffect, consistencyEffect⟩
    horizon := horizon }

/-- Source `getDefaultPrediction`: the catch-path score result. -/
def getDefaultPrediction : ScorePrediction :=
  { prediction := 50
    confidence := 0.5
    rangeMin := 30
    rangeMax := 70
    factors := none
    horizon := 7 }

/-- Feature vector produced by `extractDifficultyFeatures`. -/
structure DifficultyFeatures where
  averageScore : ℝ
  scoreConsistency : ℝ
  preferredDifficulty : String
  improvementRate : ℝ
  challengePreference : ℝ
  frustrationLevel : ℝ

/-- Source `getDefaultDifficultyFeatures`. -/
def getDefaultDifficultyFeatures : DifficultyFeatures :=
  { averageScore := 50
    scoreConsistency := 0.5
    preferredDifficulty := "medium"
    improvementRate := 0
    challengePreference := 0.5
    frustrationLevel := 0.3 }

/-- Source `generateDifficultyReasoning`: a message keyed off the average
score alone. -/
noncomputable def generateDifficultyReasoning (f : DifficultyFeatures) : String :=
  if f.averageScore > 80 then
    "高いスコアを維持しているため、より難しい課題に挑戦することをお勧めします"
  else if f.averageScore < 40 then
    "基礎を固めるため、より簡単なレベルから始めることをお勧めします"
  else
    "現在のレベルで安定した成績を上げているため、この難易度を継続することをお勧めします"

/-- Result object of a difficulty recommendation. The catch path of
`recommendDifficulty` returns an object without a `reasoning` field,
modelled as `none`. -/
structure DifficultyRecommendation where
  recommended : String
  confidence : ℝ
  reasoning : Option String

/-- Source `calculateDifficultyRecommendation`: the ordered rule cascade
over average score, consistency and improvement; first match wins, default
medium with confidence 0.5. -/
noncomputable def calculateDifficultyRecommendation (f : DifficultyFeatures) :
    DifficultyRecommendation :=
  let rc : String × ℝ :=
    if f.averageScore > 80 ∧ f.scoreConsistency > 0.8 ∧ f.improvementRate > 0 then
      ("hard", 0.9)
    else if f.averageScore > 60 ∧ f.scoreConsistency > 0.6 then
      ("medium", 0.7)
    else if f.averageScore < 40 ∨ f.scoreConsistency < 0.4 then
      ("easy", 0.8)
    else
      ("medium", 0.5)
  { recommended := rc.1
    confidence := rc.2
    reasoning := some (generateDifficultyReasoning f) }

/-- Feature vector produced by `extractEngagementFeatures` (all entries are
rational statistics of the history). -/
structure EngagementFeatures where
  dailyPlayFrequency : ℚ
  sessionDuration : ℚ
  sessionFrequency : ℚ
  gameDiversity : ℚ
  completionRate : ℚ
  returnRate : ℚ
  socialEngagement : ℚ
  achievementRate : ℚ

/-- Source `calculateEngagementTrend`: `dailyPlayFrequency * 0.1`. -/
def calculateEngagementTrend (f : EngagementFeatures) : ℚ :=
  f.dailyPlayFrequency * (1 / 10)

/-- Source `calculateSeasonalEffect`: its first statement is
`const dayOfYear = new Date().getDayOfYear();`. `Date.prototype.getDayOfYear`
is not part of JavaScript and is defined nowhere in this repository, so the
call throws a `TypeError` before the intended value
`Math.sin(dayOfYear / 365 * 2 * Math.PI) * 0.1` can be computed; the
fallible step is the `Except.error`. -/
def calculateSeasonalEffect (horizon : ℚ) : Except String ℝ :=
  Except.error "TypeError: (new Date).getDayOfYear is not a function"

/-- Source `calculateEngagementConfidence`:
`min(sessionFrequency / 7, 1) * 0.8 + 0.2`. -/
def calculateEngagementConfidence (f : EngagementFeatures) : ℚ :=
  min (f.sessionFrequency / 7) 1 * (8 / 10) + 2 / 10

/-- Factor breakdown attached to an engagement prediction. -/
structure EngagementFactors where
  baseEngagement : ℚ
  trendEffect : ℚ
  seasonalEffect : ℝ

/-- Result object of an engagement prediction; the catch-path default has an
empty `factors` object, modelled as `none`. -/
structure EngagementPrediction where
  prediction : ℝ
  confidence : ℚ
  trend : String
  factors : Option EngagementFactors
  horizon : ℚ

/-- Source `getDefaultEngagementPrediction`: the catch-path engagement
result. -/
def getDefaultEngagementPrediction : EngagementPrediction :=
  { prediction := 0.5
    confidence := 1 / 2
    trend := "stable"
    factors := none
    horizon := 7 }

/-- Source `calculateEngagementPrediction`: base + trend + seasonal effect,
rounded to two decimals and floored at 0, with the trend label positive ↦
increasing, otherwise decreasing. The seasonal term is fallible (see
`calculateSeasonalEffect`), and its error propagates. -/
noncomputable def calculateEngagementPrediction (f : EngagementFeatures)
    (horizon : ℚ) : Except String EngagementPrediction :=
  let baseEngagement := f.dailyPlayFrequency
  let trendEffect := calculateEngagementTrend f
  (calculateSeasonalEffect horizon).map (fun seasonalEffect =>
    let predictedEngagement : ℝ := (baseEngagement : ℝ) + (trendEffect : ℝ) + seasonalEffect
    { prediction := max 0 ((jsRound (predictedEngagement * 100) : ℝ) / 100)
      confidence := calculateEngagementConfidence f
      trend := if trendEffect > 0 then "increasing" else "decreasing"
      factors := some ⟨baseEngagement, trendEffect, seasonalEffect⟩
      horizon := horizon })

/-- Source `predictEngagement` modelled on the cache-miss path after a
successful fetch, with the features already extracted: the `try/catch` is
the `match`, and any error inside the computation lands in the catch arm,
which returns `getDefaultEngagementPrediction`. -/
noncomputable def predictEngagement (features : EngagementFeatures) (horizon : ℚ) :
    EngagementPrediction :=
  match calculateEngagementPrediction features horizon with
  | Except.ok p => p
  | Except.error _ => getDefaultEngagementPrediction

/-- Feature vector produced by `extractChurnFeatures`. -/
structure ChurnFeatures where
  activityDecline : ℝ
  averageScore : ℝ
  scoreDecline : ℝ
  sessionDropoff : ℝ
  gameAbandonment : ℝ
  satisfactionScore : ℝ
  engagementScore : ℝ
  daysSinceLastActivity : ℝ

/-- Source `calculateChurnPrediction`, risk part: the weighted sum of the
five risk factors (the `reduce` over the `riskFactors` array). -/
def churnRiskScore (f : ChurnFeatures) : ℝ :=
  f.activityDecline * 0.3 + f.scoreDecline * 0.2 + f.sessionDropoff * 0.25 +
    f.gameAbandonment * 0.15 + (30 - f.daysSinceLastActivity) * 0.1

/-- Source `calculateChurnPrediction`, logistic part:
`1 / (1 + Math.exp(-riskScore))`, before the two-decimal rounding applied to
the returned `probability` field. -/
noncomputable def churnProbabilityRaw (f : ChurnFeatures) : ℝ :=
  1 / (1 + Real.exp (-(churnRiskScore f)))

/-- Source `classifyRiskLevel`. -/
noncomputable def classifyRiskLevel (probability : ℝ) : String :=
  if probability < 0.3 then "low"
  else if probability < 0.6 then "medium"
  else "high"

/-- Source `calculateChurnConfidence`: weighted sum of four clamped factors,
clamped from above by 1. -/
noncomputable def calculateChurnConfidence (f : ChurnFeatures) : ℝ :=
  min (min (f.daysSinceLastActivity / 30) 1 * 0.3 + min f.activityDecline 1 * 0.3 +
    min (f.scoreDecline / 50) 1 * 0.2 + min f.gameAbandonment 1 * 0.2) 1

/-- Source `generateChurnRecommendations`: one message per breached
threshold, in source order. -/
noncomputable def generateChurnRecommendations (f : ChurnFeatures) : List String :=
  (if f.activityDecline > 0.5 then ["新しいゲームを試してみましょう"] else []) ++
    (if f.scoreDecline > 20 then ["難易度を下げて練習しましょう"] else []) ++
      (if f.daysSinceLastActivity > 7 then ["定期的にゲームを楽しみましょう"] else [])

/-- Factor breakdown attached to a churn prediction. -/
structure ChurnFactors where
  activityDecline : ℝ
  scoreDecline : ℝ
  sessionDropoff : ℝ
  gameAbandonment : ℝ
  daysSinceLastActivity : ℝ

/-- Result object of a churn prediction; the catch-path default has an empty
`factors` object, modelled as `none`. -/
structure ChurnPrediction where
  probability : ℝ
  confidence : ℝ
  riskLevel : String
  factors : Option ChurnFactors
  recommendations : List String
  horizon : ℚ

/-- Source `calculateChurnPrediction`: the returned `probability` is the raw
logistic value rounded to two decimals; the risk level is classified on the
unrounded value. -/
noncomputable def calculateChurnPrediction (f : ChurnFeatures) (horizon : ℚ) :
    ChurnPrediction :=
  { probability := (jsRound (churnProbabilityRaw f * 100) : ℝ) / 100
    confidence := calculateChurnConfidence f
    riskLevel := classifyRiskLevel (churnProbabilityRaw f)
    factors := some ⟨f.activityDecline, f.scoreDecline, f.sessionDropoff,
      f.gameAbandonment, f.daysSinceLastActivity⟩
    recommendations := generateChurnRecommendations f
    horizon := horizon }

/-- Source `getDefaultChurnPrediction`: the catch-path churn result. -/
def getDefaultChurnPrediction : ChurnPrediction :=
  { probability := 0.3
    confidence := 0.5
    riskLevel := "medium"
    factors := none
    recommendations := []
    horizon := 30 }

/-- Session produced by `groupIntoSessions`: its games, its duration
(defined as the record count), and the first and last timestamps. -/
structure Session where
  games : List GameRecord
  duration : ℕ
  startTime : ℚ
  endTime : ℚ
deriving DecidableEq

/-- Session object built from a non-empty run of records. -/
def sessionOf (l : List GameRecord) : Session :=
  { games := l
    duration := l.length
    startTime := l.headI.timestamp
    endTime := (l.getLast?.getD default).timestamp }

/-- Ordering of records by timestamp, the comparator
`(a, b) => a.timestamp - b.timestamp` of the in-place sort. -/
def recTsLE (a b : GameRecord) : Prop :=
  a.timestamp ≤ b.timestamp

instance : DecidableRel recTsLE :=
  fun a b => inferInstanceAs (Decidable (a.timestamp ≤ b.timestamp))

instance : IsTotal GameRecord recTsLE :=
  ⟨fun a b => le_total a.timestamp b.timestamp⟩

instance : IsTrans GameRecord recTsLE :=
  ⟨fun _ _ _ h1 h2 => le_trans h1 h2⟩

/-- Splits an already sorted record list into maximal runs in which each
record follows its predecessor within 30 minutes; `cur` is the current run,
most recent record first. Mirrors the `forEach` of `groupIntoSessions`. -/
def sessionRuns (cur : List GameRecord) : List GameRecord → List (List GameRecord)
  | [] => [cur.reverse]
  | g :: gs =>
    match cur with
    | [] => sessionRuns [g] gs
    | lastGame :: _ =>
      if g.timestamp - lastGame.timestamp < 30 * 60 * 1000 then
        sessionRuns (g :: cur) gs
      else
        cur.reverse :: sessionRuns [g] gs

/-- Source `groupIntoSessions`. The source first runs
`games.sort((a, b) => a.timestamp - b.timestamp)`, a stable in-place sort of
the SUPPLIED array (modelled by stable insertion sort); the second component
of the result is the post-call contents of that array, the first component
is the session list built from it. -/
def groupIntoSessions (games : List GameRecord) : List Session × List GameRecord :=
  let sorted := List.insertionSort recTsLE games
  match sorted with
  | [] => ([], sorted)
  | g :: gs => ((sessionRuns [g] gs).map sessionOf, sorted)

/-- Global refresh interval `config.updateInterval`: 24 hours in
milliseconds. -/
def updateInterval : ℚ :=
  24 * 60 * 60 * 1000

/-- Mutable state of the engine relevant to caching: the result cache (an
association list modelling the `Map`, newest entry first, so `Map.set` is
cons and `Map.get` is `lookup`) and the global `lastUpdate` timestamp (set
to 0 in the constructor). -/
structure EngineState where
  cache : List (String × ScorePrediction)
  lastUpdate : ℚ

/-- Cache key template of `predictScore`. -/
def scoreCacheKey (userId gameType difficulty : String) (horizon : ℕ) : String :=
  "score_" ++ userId ++ "_" ++ gameType ++ "_" ++ difficulty ++ "_" ++ toString horizon

/-- Source `predictScore` as a state transformer. Inputs: the engine state,
the clock value `now`, the result of the `getUserData` fetch, and the
request parameters. Output: the returned prediction, the new engine state,
and the number of feature-extraction passes performed by the call (the call
counter of the record-store stub). On a cache hit younger than
`updateInterval` the cached value is returned unchanged; otherwise the
`try` computes, stores and returns a fresh value, and the `catch` returns
`getDefaultPrediction`. -/
noncomputable def predictScore (st : EngineState) (now : ℚ)
    (fetchResult : Except String UserData)
    (userId gameType difficulty : String) (horizon : ℕ) :
    ScorePrediction × EngineState × ℕ :=
  let cacheKey := scoreCacheKey userId gameType difficulty horizon
  let compute : ScorePrediction × EngineState × ℕ :=
    match fetchResult with
    | Except.ok userData =>
      let features := extractScoreFeatures userData gameType difficulty now
      let prediction := calculateScorePrediction features (horizon : ℝ)
      (prediction, ⟨(cacheKey, prediction) :: st.cache, st.lastUpdate⟩, 1)
    | Except.error _ => (getDefaultPrediction, st, 0)
  match st.cache.lookup cacheKey with
  | some cached =>
    if now - st.lastUpdate < updateInterval then (cached, st, 0) else compute
  | none => compute

/-- Source `getMostFrequent`: builds the count table in first-appearance
order and reduces with `counts[a] > counts[b] ? a : b`. The empty case is
unreachable at the call site (JavaScript would throw there). -/
def getMostFrequent (l : List String) : String :=
  match l.eraseDups with
  | [] => ""
  | k :: ks => ks.foldl (fun a b => if l.count a > l.count b then a else b) k

/-- Source `calculateImprovementRate`: relative improvement of the last 3
scores over the previous 3, `0` for fewer than 5 points. -/
def calculateImprovementRate (l : List ℚ) : ℚ :=
  if l.length < 5 then 0
  else
    let recent := l.drop (l.length - 3)
    let older := (l.drop (l.length - 6)).take (l.length - 3 - (l.length - 6))
    if older.length = 0 then 0
    else (mean recent - mean older) / max (mean older) 1

/-- Source `calculateChallengePreference`: mean encoded difficulty over 4. -/
def calculateChallengePreference (games : List GameRecord) : ℚ :=
  mean (games.map (fun g => encodeDifficulty g.difficulty)) / 4

/-- Source `calculateFrustrationLevel`: incomplete games plus sub-30 scores,
over the game count. -/
def calculateFrustrationLevel (games : List GameRecord) : ℚ :=
  (((games.filter (fun g => !g.completed)).length : ℚ) +
    ((games.filter (fun g => g.score < 30)).length : ℚ)) / (games.length : ℚ)

/-- Source `extractDifficultyFeatures`: the full history of the game type;
default features when it is empty, otherwise statistics of the last 10
records. -/
noncomputable def extractDifficultyFeatures (userData : UserData) (gameType : String) :
    DifficultyFeatures :=
  let gameHistory := userData.games.filter (fun g => g.gameType == gameType)
  if gameHistory.length = 0 then getDefaultDifficultyFeatures
  else
    let recentGames := gameHistory.drop (gameHistory.length - 10)
    let scores := recentGames.map (fun g => g.score)
    let difficulties := recentGames.map (fun g => g.difficulty)
    { averageScore := (mean scores : ℝ)
      scoreConsistency := calculateConsistency scores
      preferredDifficulty := getMostFrequent difficulties
      improvementRate := (calculateImprovementRate scores : ℝ)
      challengePreference := (calculateChallengePreference recentGames : ℝ)
      frustrationLevel := (calculateFrustrationLevel recentGames : ℝ) }

/-- Source `recommendDifficulty`: uncached; the `try` computes the cascade
on the extracted features, the `catch` returns the bare
`{recommended: medium, confidence: 0.5}` object (no `reasoning` field). -/
noncomputable def recommendDifficulty (fetchResult : Except String UserData)
    (gameType : String) : DifficultyRecommendation :=
  match fetchResult with
  | Except.ok userData =>
    calculateDifficultyRecommendation (extractDifficultyFeatures userData gameType)
  | Except.error _ => { recommended := "medium", confidence := 0.5, reasoning := none }

/-- Checked variant of `mean`: `none` exactly where the source divides by a
zero length (producing `NaN`). -/
def meanChecked (l : List ℚ) : Option ℚ :=
  if l.length = 0 then none else some (l.sum / l.length)

/-- Source `calculateCompletionRate`, checked: `none` on an empty list. -/
def calculateCompletionRateChecked (games : List GameRecord) : Option ℚ :=
  if games.length = 0 then none
  else some (((games.filter (fun g => g.completed)).length : ℚ) / (games.length : ℚ))

/-- Source `calculateGameAbandonment`, checked: incomplete games over the
game count, `none` on an empty list. -/
def calculateGameAbandonmentChecked (games : List GameRecord) : Option ℚ :=
  if games.length = 0 then none
  else some (((games.filter (fun g => !g.completed)).length : ℚ) / (games.length : ℚ))

/-- Source `calculateActivityDecline`: relative drop from the 7-to-14-day
count to the last-7-day count; the denominator `max(older, 1)` is never
zero, so this is total. -/
def calculateActivityDecline (userData : UserData) (now : ℚ) : ℚ :=
  let recent := (userData.games.filter (fun g =>
    decide (g.timestamp > now - 7 * 24 * 60 * 60 * 1000))).length
  let older := (userData.games.filter (fun g =>
    decide (g.timestamp > now - 14 * 24 * 60 * 60 * 1000) &&
      decide (g.timestamp ≤ now - 7 * 24 * 60 * 60 * 1000))).length
  ((older : ℚ) - (recent : ℚ)) / max (older : ℚ) 1

/-- Source `calculateScoreDecline`: drop of the last 5 scores below the
previous 5, `0` for fewer than 10 games. -/
def calculateScoreDecline (games : List GameRecord) : ℚ :=
  if games.length < 10 then 0
  else
    let scores := games.map (fun g => g.score)
    mean ((scores.drop (scores.length - 10)).take 5) - mean (scores.drop (scores.length - 5))

/-- Source `calculateSessionDropoff`: relative drop of the mean duration of
the last 3 sessions below the previous 3, with early-out guards; the means
apply only to non-empty slices, and `max(olderAvg, 1)` keeps the division
total. Note that this walks `groupIntoSessions` over the full supplied
history. -/
def calculateSessionDropoff (userData : UserData) : ℚ :=
  let sessions := (groupIntoSessions userData.games).1
  if sessions.length < 2 then 0
  else
    let recentSessions := sessions.drop (sessions.length - 3)
    let olderSessions := (sessions.drop (sessions.length - 6)).take
      (sessions.length - 3 - (sessions.length - 6))
    if olderSessions.length = 0 then 0
    else
      let recentAvg := mean (recentSessions.map (fun s => (s.duration : ℚ)))
      let olderAvg := mean (olderSessions.map (fun s => (s.duration : ℚ)))
      (olderAvg - recentAvg) / max olderAvg 1

/-- Source `calculateDaysSinceLastActivity`: `999` for an empty history,
otherwise the floored day difference to the last stored record. -/
def calculateDaysSinceLastActivity (userData : UserData) (now : ℚ) : ℚ :=
  match userData.games.getLast? with
  | none => 999
  | some lastGame => ⌊(now - lastGame.timestamp) / (24 * 60 * 60 * 1000)⌋

/-- Source `calculateSatisfactionMetrics` (its `score` field), checked:
`mean(scores)/100 * 0.7 + completionRate * 0.3`, `none` where either
division hits an empty list. -/
def calculateSatisfactionMetricsChecked (games : List GameRecord) : Option ℚ := do
  let m ← meanChecked (games.map (fun g => g.score))
  let c ← calculateCompletionRateChecked games
  pure (m / 100 * (7 / 10) + c * (3 / 10))

/-- Source `calculateEngagementMetrics` (its `score` field), checked:
`min(dailyFrequency/3, 1) * 0.6 + min(mean(durations)/5, 1) * 0.4`; `none`
where the mean of the session durations hits an empty session list. -/
def calculateEngagementMetricsChecked (userData : UserData) (now : ℚ) : Option ℚ := do
  let recentActivity := userData.games.filter (fun g =>
    decide (g.timestamp > now - 7 * 24 * 60 * 60 * 1000))
  let dailyFrequency := (recentActivity.length : ℚ) / 7
  let durations := ((groupIntoSessions recentActivity).1).map (fun s => (s.duration : ℚ))
  let d ← meanChecked durations
  pure (min (dailyFrequency / 3) 1 * (6 / 10) + min (d / 5) 1 * (4 / 10))

/-- Feature vector of `extractChurnFeatures` in the checked embedding:
fields whose source computation can divide by zero are `Option`-valued
(`none` marks a `NaN`). -/
structure ChurnFeaturesChecked where
  activityDecline : ℚ
  averageScore : Option ℚ
  scoreDecline : ℚ
  sessionDropoff : ℚ
  gameAbandonment : Option ℚ
  satisfactionScore : Option ℚ
  engagementScore : Option ℚ
  daysSinceLastActivity : ℚ
deriving DecidableEq

/-- Source `extractChurnFeatures`, checked: statistics of the 30-day window
and the full history. -/
def extractChurnFeaturesChecked (userData : UserData) (now : ℚ) : ChurnFeaturesChecked :=
  let recentGames := userData.games.filter (fun g =>
    decide (g.timestamp > now - 30 * 24 * 60 * 60 * 1000))
  { activityDecline := calculateActivityDecline userData now
    averageScore := meanChecked (recentGames.map (fun g => g.score))
    scoreDecline := calculateScoreDecline recentGames
    sessionDropoff := calculateSessionDropoff userData
    gameAbandonment := calculateGameAbandonmentChecked recentGames
    satisfactionScore := calculateSatisfactionMetricsChecked recentGames
    engagementScore := calculateEngagementMetricsChecked userData now
    daysSinceLastActivity := calculateDaysSinceLastActivity userData now }

/-- Risk score of `calculateChurnPrediction` in the checked embedding: it
reads `gameAbandonment`, so a `NaN` there contaminates the whole sum
(`none`). -/
def churnRiskScoreChecked (f : ChurnFeaturesChecked) : Option ℚ :=
  f.gameAbandonment.map (fun ab =>
    f.activityDecline * (3 / 10) + f.scoreDecline * (2 / 10) +
      f.sessionDropoff * (25 / 100) + ab * (15 / 100) +
        (30 - f.daysSinceLastActivity) * (1 / 10))

/-- Probability returned by `predictChurnRisk` in the checked embedding
(successful fetch, cache miss): `none` where the risk score is `NaN`. -/
noncomputable def predictChurnRiskProbabilityChecked (userData : UserData) (now : ℚ) :
    Option ℝ :=
  (churnRiskScoreChecked (extractChurnFeaturesChecked userData now)).map (fun r =>
    (jsRound (1 / (1 + Real.exp (-(r : ℝ))) * 100) : ℝ) / 100)

/-! Theorems settling the claims. -/

/-- C7: for every difficulty feature vector the recommendation is the first
matching rule of the ordered cascade — (score>80 ∧ consistency>0.8 ∧
improvement>0) ↦ hard/0.9; else (score>60 ∧ consistency>0.6) ↦ medium/0.7;
else (score<40 ∨ consistency<0.4) ↦ easy/0.8; else medium/0.5 — and in
particular score 85/consistency 0.85/improvement 1 yields hard/0.9,
score 30/consistency 0.3 yields easy/0.8, and score 50/consistency 0.5
yields medium/0.5. -/
theorem difficulty_recommendation_cascade (f : DifficultyFeatures) :
    ((f.averageScore > 80 ∧ f.scoreConsistency > 0.8 ∧ f.improvementRate > 0) →
      calculateDifficultyRecommendation f =
        ⟨"hard", 0.9, some (generateDifficultyReasoning f)⟩) ∧
    (¬(f.averageScore > 80 ∧ f.scoreConsistency > 0.8 ∧ f.improvementRate > 0) →
      (f.averageScore > 60 ∧ f.scoreConsistency > 0.6) →
      calculateDifficultyRecommendation f =
        ⟨"medium", 0.7, some (generateDifficultyReasoning f)⟩) ∧
    (¬(f.averageScore > 80 ∧ f.scoreConsistency > 0.8 ∧ f.improvementRate > 0) →
      ¬(f.averageScore > 60 ∧ f.scoreConsistency > 0.6) →
      (f.averageScore < 40 ∨ f.scoreConsistency < 0.4) →
      calculateDifficultyRecommendation f =
        ⟨"easy", 0.8, some (generateDifficultyReasoning f)⟩) ∧
    (¬(f.averageScore > 80 ∧ f.scoreConsistency > 0.8 ∧ f.improvementRate > 0) →
      ¬(f.averageScore > 60 ∧ f.scoreConsistency > 0.6) →
      ¬(f.averageScore < 40 ∨ f.scoreConsistency < 0.4) →
      calculateDifficultyRecommendation f =
        ⟨"medium", 0.5, some (generateDifficultyReasoning f)⟩) ∧
    ((calculateDifficultyRecommendation ⟨85, 0.85, "medium", 1, 0, 0⟩).recommended = "hard" ∧
      (calculateDifficultyRecommendation ⟨85, 0.85, "medium", 1, 0, 0⟩).confidence = 0.9) ∧
    ((calculateDifficultyRecommendation ⟨30, 0.3, "medium", 0, 0, 0⟩).recommended = "easy" ∧
      (calculateDifficultyRecommendation ⟨30, 0.3, "medium", 0, 0, 0⟩).confidence = 0.8) ∧
    ((calculateDifficultyRecommendation ⟨50, 0.5, "medium", 0, 0, 0⟩).recommended = "medium" ∧
      (calculateDifficultyRecommendation ⟨50, 0.5, "medium", 0, 0, 0⟩).confidence = 0.5) := by
  unfold calculateDifficultyRecommendation
  refine ⟨?_, ?_, ?_, ?_, ?_, ?_, ?_⟩
  · intro hA
    rw [if_pos hA]
  · intro hA hB
    rw [if_neg hA, if_pos hB]
  · intro hA hB hC
    rw [if_neg hA, if_neg hB, if_pos hC]
  · intro hA hB hC
    rw [if_neg hA, if_neg hB, if_neg hC]
  · norm_num
  · norm_num
  · norm_num

/-- C7 witness: the cascade theorem applied to the concrete vector with
score 85, consistency 0.85 and improvement 1 yields hard/0.9. -/
theorem difficulty_recommendation_cascade_witness :
    ((85 : ℝ) > 80 ∧ (0.85 : ℝ) > 0.8 ∧ (1 : ℝ) > 0) ∧
    calculateDifficultyRecommendation ⟨85, 0.85, "medium", 1, 0, 0⟩ =
      ⟨"hard", 0.9, some (generateDifficultyReasoning ⟨85, 0.85, "medium", 1, 0, 0⟩)⟩ :=
  ⟨by norm_num,
    (difficulty_recommendation_cascade ⟨85, 0.85, "medium", 1, 0, 0⟩).1 (by norm_num)⟩

/-- C6: whenever the history filtered to the target game type, target
difficulty and the 30-day window has fewer than 5 records,
`extractScoreFeatures` returns exactly the literal default feature
vector. -/
theorem extractScoreFeatures_default_under_five (userData : UserData)
    (gameType difficulty : String) (now : ℚ)
    (h : (userData.games.filter (fun g =>
      g.gameType == gameType && g.difficulty == difficulty &&
        decide (g.timestamp > now - 30 * 24 * 60 * 60 * 1000))).length < 5) :
    extractScoreFeatures userData gameType difficulty now = getDefaultFeatures := by
  unfold extractScoreFeatures
  rw [if_pos h]

/-- C6 witness: a user with no records qualifies (0 < 5) and receives the
default feature vector. -/
theorem extractScoreFeatures_default_under_five_witness :
    (((⟨[]⟩ : UserData).games.filter (fun g =>
      g.gameType == "memory_game" && g.difficulty == "medium" &&
        decide (g.timestamp > 0 - 30 * 24 * 60 * 60 * 1000))).length < 5) ∧
    extractScoreFeatures ⟨[]⟩ "memory_game" "medium" 0 = getDefaultFeatures :=
  ⟨by decide, extractScoreFeatures_default_under_five ⟨[]⟩ "memory_game" "medium" 0 (by decide)⟩

/-- C4 counterexample: the confidence is NOT clamped to [0,1] — at the
feature vector with consistency 0, experience 0, improvement 0 and variance
200 the returned confidence is negative. -/
theorem prediction_confidence_can_be_negative :
    calculatePredictionConfidence ⟨50, 0, 200, 300, 3, 0.7, 0, 0, 2, 0⟩ < 0 := by
  norm_num [calculatePredictionConfidence, min_def]

/-- C4 amended: the confidence equals the weighted sum
0.3·consistency + 0.2·min(experience/20,1) + 0.3·(1−variance/100) +
0.2·min(improvement/10,1) clamped from ABOVE at 1 only; hence it is always
at most 1, and it lies in [0,1] whenever that weighted sum is
non-negative. -/
theorem prediction_confidence_clamped_above (f : ScoreFeatures) :
    calculatePredictionConfidence f =
      min (0.3 * f.consistency + 0.2 * min (f.gameExperience / 20) 1 +
        0.3 * (1 - f.scoreVariance / 100) + 0.2 * min (f.recentImprovement / 10) 1) 1 ∧
    calculatePredictionConfidence f ≤ 1 ∧
    (0 ≤ 0.3 * f.consistency + 0.2 * min (f.gameExperience / 20) 1 +
        0.3 * (1 - f.scoreVariance / 100) + 0.2 * min (f.recentImprovement / 10) 1 →
      0 ≤ calculatePredictionConfidence f) := by
  refine ⟨?_, ?_, ?_⟩
  · unfold calculatePredictionConfidence
    congr 1
    ring
  · exact min_le_right _ _
  · intro h0
    unfold calculatePredictionConfidence
    exact le_min (by linarith) zero_le_one

/-- C4 witness: at the default feature vector the weighted sum is
non-negative and the confidence lands in [0,1]. -/
theorem prediction_confidence_clamped_above_witness :
    (0 ≤ 0.3 * getDefaultFeatures.consistency +
      0.2 * min (getDefaultFeatures.gameExperience / 20) 1 +
      0.3 * (1 - getDefaultFeatures.scoreVariance / 100) +
      0.2 * min (getDefaultFeatures.recentImprovement / 10) 1) ∧
    0 ≤ calculatePredictionConfidence getDefaultFeatures ∧
    calculatePredictionConfidence getDefaultFeatures ≤ 1 :=
  ⟨by norm_num [getDefaultFeatures, min_def],
    (prediction_confidence_clamped_above getDefaultFeatures).2.2
      (by norm_num [getDefaultFeatures, min_def]),
    (prediction_confidence_clamped_above getDefaultFeatures).2.1⟩

/-- C5: when the user-data fetch fails, `predictScore` (on any non-hit cache
path, which is where the fetch runs at all) returns the fixed default score
result — prediction 50, confidence 0.5, range 30 to 70 — with no feature
extraction, leaving the state unchanged, and `recommendDifficulty` returns
medium with confidence 0.5; neither propagates the error. -/
theorem predict_default_on_fetch_error (st : EngineState) (now : ℚ)
    (userId gameType difficulty : String) (horizon : ℕ) (e : String) :
    (st.cache.lookup (scoreCacheKey userId gameType difficulty horizon) = none →
      predictScore st now (Except.error e) userId gameType difficulty horizon =
        (getDefaultPrediction, st, 0)) ∧
    (∀ p, st.cache.lookup (scoreCacheKey userId gameType difficulty horizon) = some p →
      ¬(now - st.lastUpdate < updateInterval) →
      predictScore st now (Except.error e) userId gameType difficulty horizon =
        (getDefaultPrediction, st, 0)) ∧
    recommendDifficulty (Except.error e) gameType = ⟨"medium", 0.5, none⟩ ∧
    getDefaultPrediction.prediction = 50 ∧
    getDefaultPrediction.confidence = 0.5 ∧
    getDefaultPrediction.rangeMin = 30 ∧
    getDefaultPrediction.rangeMax = 70 := by
  refine ⟨?_, ?_, rfl, rfl, rfl, rfl, rfl⟩
  · intro hnone
    simp [predictScore, hnone]
  · intro p hsome hstale
    simp [predictScore, hsome, hstale]

/-- C5 witness: concrete failed fetch on an empty cache yields the default
prediction. -/
theorem predict_default_on_fetch_error_witness :
    ((⟨[], 0⟩ : EngineState).cache.lookup (scoreCacheKey "u1" "memory_game" "medium" 7) =
      none) ∧
    predictScore ⟨[], 0⟩ 0 (Except.error "Failed to fetch user data")
        "u1" "memory_game" "medium" 7 = (getDefaultPrediction, ⟨[], 0⟩, 0) :=
  ⟨rfl, (predict_default_on_fetch_error ⟨[], 0⟩ 0 "u1" "memory_game" "medium" 7
    "Failed to fetch user data").1 rfl⟩

/-- C1: get-or-compute semantics of the score cache. (a) On a cache hit with
the global cache younger than the 24-hour refresh interval, the cached value
is returned with no feature-extraction pass and no state change. (b) When
the refresh interval has elapsed, the call recomputes from the fetched user
data, stores the fresh value under the request key, and returns it (one
feature-extraction pass). (c) Two identical requests, the first a miss that
computes and stores and the second arriving while the cache is younger than
the refresh interval, return the identical result, the second with no
feature-extraction pass. -/
theorem predictScore_cache_semantics (st : EngineState) (now now2 : ℚ)
    (fetch1 fetch2 : Except String UserData) (ud : UserData)
    (userId gameType difficulty : String) (horizon : ℕ) :
    (∀ p, st.cache.lookup (scoreCacheKey userId gameType difficulty horizon) = some p →
      now - st.lastUpdate < updateInterval →
      predictScore st now fetch1 userId gameType difficulty horizon = (p, st, 0)) ∧
    (¬(now - st.lastUpdate < updateInterval) →
      predictScore st now (Except.ok ud) userId gameType difficulty horizon =
        (calculateScorePrediction (extractScoreFeatures ud gameType difficulty now)
            (horizon : ℝ),
          ⟨(scoreCacheKey userId gameType difficulty horizon,
              calculateScorePrediction (extractScoreFeatures ud gameType difficulty now)
                (horizon : ℝ)) :: st.cache,
            st.lastUpdate⟩, 1)) ∧
    (st.cache.lookup (scoreCacheKey userId gameType difficulty horizon) = none →
      now - st.lastUpdate < updateInterval →
      now2 - st.lastUpdate < updateInterval →
      (predictScore st now (Except.ok ud) userId gameType difficulty horizon).2.2 = 1 ∧
      predictScore (predictScore st now (Except.ok ud) userId gameType difficulty horizon).2.1
          now2 fetch2 userId gameType difficulty horizon =
        ((predictScore st now (Except.ok ud) userId gameType difficulty horizon).1,
          (predictScore st now (Except.ok ud) userId gameType difficulty horizon).2.1, 0)) := by
  refine ⟨?_, ?_, ?_⟩
  · intro p hp hfresh
    simp [predictScore, hp, hfresh]
  · intro hstale
    cases hl : st.cache.lookup (scoreCacheKey userId gameType difficulty horizon) with
    | none => simp [predictScore, hl]
    | some c => simp [predictScore, hl, hstale]
  · intro hnone hfresh1 hfresh2
    have h1 : predictScore st now (Except.ok ud) userId gameType difficulty horizon =
        (calculateScorePrediction (extractScoreFeatures ud gameType difficulty now)
            (horizon : ℝ),
          ⟨(scoreCacheKey userId gameType difficulty horizon,
              calculateScorePrediction (extractScoreFeatures ud gameType difficulty now)
                (horizon : ℝ)) :: st.cache,
            st.lastUpdate⟩, 1) := by
      simp [predictScore, hnone]
    rw [h1]
    exact ⟨rfl, by simp [predictScore, List.lookup, hfresh2]⟩

/-- C1 witness: starting from the constructor state (empty cache,
lastUpdate 0) at clock 0, a first score request computes (one extraction
pass) and a second identical request at clock 1000, still inside the
24-hour interval, returns the identical stored result with zero extraction
passes. -/
theorem predictScore_cache_semantics_witness :
    ((⟨[], 0⟩ : EngineState).cache.lookup (scoreCacheKey "u1" "memory_game" "medium" 7) =
      none) ∧
    ((0 : ℚ) - 0 < updateInterval) ∧ ((1000 : ℚ) - 0 < updateInterval) ∧
    ((predictScore ⟨[], 0⟩ 0 (Except.ok ⟨[]⟩) "u1" "memory_game" "medium" 7).2.2 = 1 ∧
      predictScore (predictScore ⟨[], 0⟩ 0 (Except.ok ⟨[]⟩) "u1" "memory_game" "medium" 7).2.1
          1000 (Except.ok ⟨[]⟩) "u1" "memory_game" "medium" 7 =
        ((predictScore ⟨[], 0⟩ 0 (Except.ok ⟨[]⟩) "u1" "memory_game" "medium" 7).1,
          (predictScore ⟨[], 0⟩ 0 (Except.ok ⟨[]⟩) "u1" "memory_game" "medium" 7).2.1, 0)) :=
  ⟨rfl, by norm_num [updateInterval], by norm_num [updateInterval],
    (predictScore_cache_semantics ⟨[], 0⟩ 0 1000 (Except.ok ⟨[]⟩) (Except.ok ⟨[]⟩) ⟨[]⟩
      "u1" "memory_game" "medium" 7).2.2 rfl
      (by norm_num [updateInterval]) (by norm_num [updateInterval])⟩

/-- C2: `calculateSeasonalEffect` always fails (its first statement calls
the non-existent `Date.prototype.getDayOfYear`), so every engagement
prediction lands in the catch and returns the default result with
prediction 0.5 and trend label stable — never the formula value
`dailyPlayFrequency + dailyPlayFrequency*0.1 + sin(dayOfYear/365·2π)*0.1`,
and never a trend label of increasing or decreasing. -/
theorem engagement_prediction_is_dead_code (f : EngagementFeatures) (horizon : ℚ) :
    calculateEngagementPrediction f horizon =
      Except.error "TypeError: (new Date).getDayOfYear is not a function" ∧
    predictEngagement f horizon = getDefaultEngagementPrediction ∧
    getDefaultEngagementPrediction.trend = "stable" ∧
    getDefaultEngagementPrediction.prediction = 0.5 :=
  ⟨rfl, rfl, rfl, rfl⟩

/-- C9: on the reachable path of a user with zero records (successful fetch
of an empty history), the churn feature extraction applies `mean` and the
abandonment rate to an empty record set — in the checked embedding the
average score, abandonment, satisfaction and engagement fields are all
`none` (the source produces `NaN`), the risk score and the returned
probability are undefined, and no exception is raised that the catch-path
default could absorb. -/
theorem churn_nan_on_empty_history :
    (extractChurnFeaturesChecked ⟨[]⟩ 0).averageScore = none ∧
    (extractChurnFeaturesChecked ⟨[]⟩ 0).gameAbandonment = none ∧
    (extractChurnFeaturesChecked ⟨[]⟩ 0).satisfactionScore = none ∧
    (extractChurnFeaturesChecked ⟨[]⟩ 0).engagementScore = none ∧
    (extractChurnFeaturesChecked ⟨[]⟩ 0).daysSinceLastActivity = 999 ∧
    churnRiskScoreChecked (extractChurnFeaturesChecked ⟨[]⟩ 0) = none ∧
    predictChurnRiskProbabilityChecked ⟨[]⟩ 0 = none := by
  have h6 : churnRiskScoreChecked (extractChurnFeaturesChecked ⟨[]⟩ 0) = none := by decide
  refine ⟨by decide, by decide, by decide, by decide, by decide, h6, ?_⟩
  simp [predictChurnRiskProbabilityChecked, h6]

/-- Concrete record with the earlier timestamp, used for the session-order
results. -/
def recEarly : GameRecord :=
  ⟨"memory_game", "easy", 10, 60, 0, true, 0⟩

/-- Concrete record one hour later than `recEarly`. -/
def recLate : GameRecord :=
  ⟨"memory_game", "easy", 20, 60, 0, true, 3600000⟩

/-- C8 counterexample: the session grouping is NOT free of side effects on
the supplied record collection — handed the records in the order late,
early, it leaves them reordered (sorted) in the caller's array. -/
theorem groupIntoSessions_mutates_order :
    (groupIntoSessions [recLate, recEarly]).2 = [recEarly, recLate] ∧
    [recEarly, recLate] ≠ [recLate, recEarly] := by
  constructor
  · decide
  · decide

/-- C8 amended: `groupIntoSessions` sorts the supplied array in place by
ascending timestamp, so after the call the caller's list holds the same
records (a permutation of the input) in sorted order; the order is
unchanged exactly when the input was already sorted by timestamp. -/
theorem groupIntoSessions_sorts_in_place (games : List GameRecord) :
    ((groupIntoSessions games).2).Perm games ∧
    List.Sorted recTsLE (groupIntoSessions games).2 ∧
    (List.Sorted recTsLE games → (groupIntoSessions games).2 = games) := by
  have h2 : (groupIntoSessions games).2 = List.insertionSort recTsLE games := by
    unfold groupIntoSessions
    rcases hs : List.insertionSort recTsLE games with _ | ⟨g, gs⟩ <;> simp [hs]
  refine ⟨h2 ▸ List.perm_insertionSort recTsLE games,
    h2 ▸ List.sorted_insertionSort recTsLE games,
    fun hsorted => h2 ▸ hsorted.insertionSort_eq⟩

/-- C8 witness: an input already sorted by timestamp comes back in the same
order. -/
theorem groupIntoSessions_sorts_in_place_witness :
    List.Sorted recTsLE [recEarly, recLate] ∧
    (groupIntoSessions [recEarly, recLate]).2 = [recEarly, recLate] :=
  ⟨by decide, (groupIntoSessions_sorts_in_place [recEarly, recLate]).2.2 (by decide)⟩

/-- C10 counterexample: with non-negative variance (0) and horizon 1, the
feature vector with average 0 and trend −1 yields predicted −1 and margin
0, so range.max rounds to −1 while range.min is floored at 0 — the interval
is inverted. -/
theorem score_prediction_range_can_invert :
    (0 : ℝ) ≤ (⟨0, -1, 0, 0, 0, 0, 0, 0, 1, 0⟩ : ScoreFeatures).scoreVariance ∧
    (1 : ℝ) ≤ 1 ∧
    (calculateScorePrediction ⟨0, -1, 0, 0, 0, 0, 0, 0, 1, 0⟩ 1).rangeMax <
      (calculateScorePrediction ⟨0, -1, 0, 0, 0, 0, 0, 0, 1, 0⟩ 1).rangeMin := by
  refine ⟨le_refl 0, le_refl 1, ?_⟩
  have hmargin : calculatePredictionMargin (⟨0, -1, 0, 0, 0, 0, 0, 0, 1, 0⟩ : ScoreFeatures) 1 = 0 := by
    unfold calculatePredictionMargin
    norm_num
  have hfl : jsRound (-1 : ℝ) = -1 := by
    unfold jsRound
    apply Int.floor_eq_iff.mpr
    constructor <;> norm_num
  simp only [calculateScorePrediction, hmargin]
  norm_num [min_def, hfl]

/-- C10 amended: for every score feature vector with non-negative
scoreVariance and horizon ≥ 1 the margin is non-negative, and whenever the
rounded upper endpoint range.max is non-negative (in particular whenever
predicted + margin ≥ 0) the interval is valid: range.min ≤ range.max. -/
theorem score_prediction_range_valid (f : ScoreFeatures) (horizon : ℝ)
    (hvar : 0 ≤ f.scoreVariance) (hhor : 1 ≤ horizon) :
    0 ≤ calculatePredictionMargin f horizon ∧
    (0 ≤ (calculateScorePrediction f horizon).rangeMax →
      (calculateScorePrediction f horizon).rangeMin ≤
        (calculateScorePrediction f horizon).rangeMax) := by
  have hmargin : 0 ≤ calculatePredictionMargin f horizon := by
    unfold calculatePredictionMargin
    have h1 : 0 ≤ Real.sqrt horizon := Real.sqrt_nonneg _
    nlinarith
  refine ⟨hmargin, ?_⟩
  intro hmax
  have hmono : ∀ x y : ℝ, x ≤ y → jsRound x ≤ jsRound y := fun x y h =>
    Int.floor_mono (by linarith)
  simp only [calculateScorePrediction] at *
  exact max_le hmax (hmono _ _ (by linarith))

/-- C10 witness: the default features (variance 25) at horizon 1 give a
non-negative rounded upper endpoint and hence a valid interval. -/
theorem score_prediction_range_valid_witness :
    ((0 : ℝ) ≤ getDefaultFeatures.scoreVariance) ∧ ((1 : ℝ) ≤ 1) ∧
    (0 ≤ (calculateScorePrediction getDefaultFeatures 1).rangeMax) ∧
    (calculateScorePrediction getDefaultFeatures 1).rangeMin ≤
      (calculateScorePrediction getDefaultFeatures 1).rangeMax := by
  have hmax : 0 ≤ (calculateScorePrediction getDefaultFeatures 1).rangeMax := by
    simp only [calculateScorePrediction, calculatePredictionMargin, getDefaultFeatures, jsRound]
    apply Int.le_floor.mpr
    rw [Real.sqrt_one]
    norm_num [min_def]
  exact ⟨by norm_num [getDefaultFeatures], le_refl 1, hmax,
    (score_prediction_range_valid getDefaultFeatures 1
      (by norm_num [getDefaultFeatures]) (le_refl 1)).2 hmax⟩

/-- C3 counterexample: churn probability is NOT monotonically non-decreasing
in daysSinceLastActivity — with all other factors 0, moving from 30 to 40
days since the last activity LOWERS the returned probability (0.5 versus
strictly below 0.5), because the risk term is `(30 − days)·0.1`. -/
theorem churn_probability_not_nondecreasing :
    ((⟨0, 0, 0, 0, 0, 0, 0, 30⟩ : ChurnFeatures).daysSinceLastActivity ≤
      (⟨0, 0, 0, 0, 0, 0, 0, 40⟩ : ChurnFeatures).daysSinceLastActivity) ∧
    (calculateChurnPrediction ⟨0, 0, 0, 0, 0, 0, 0, 40⟩ 30).probability <
      (calculateChurnPrediction ⟨0, 0, 0, 0, 0, 0, 0, 30⟩ 30).probability := by
  constructor
  · norm_num
  · have hr30 : churnRiskScore ⟨0, 0, 0, 0, 0, 0, 0, 30⟩ = 0 := by
      norm_num [churnRiskScore]
    have hp30 : churnProbabilityRaw ⟨0, 0, 0, 0, 0, 0, 0, 30⟩ = 1 / 2 := by
      unfold churnProbabilityRaw
      rw [hr30]
      norm_num [Real.exp_zero]
    have hprob30 : (calculateChurnPrediction ⟨0, 0, 0, 0, 0, 0, 0, 30⟩ 30).probability =
        1 / 2 := by
      simp only [calculateChurnPrediction]
      rw [hp30]
      have h50 : jsRound ((1 : ℝ) / 2 * 100) = 50 := by
        unfold jsRound
        apply Int.floor_eq_iff.mpr
        constructor <;> norm_num
      rw [h50]
      norm_num
    have hr40 : churnRiskScore ⟨0, 0, 0, 0, 0, 0, 0, 40⟩ = -1 := by
      norm_num [churnRiskScore]
    have he : (2.7182818283 : ℝ) < Real.exp 1 := Real.exp_one_gt_d9
    have hp40lt : churnProbabilityRaw ⟨0, 0, 0, 0, 0, 0, 0, 40⟩ * 100 < 49.5 := by
      unfold churnProbabilityRaw
      rw [hr40, neg_neg]
      have hepos : (0 : ℝ) < 1 + Real.exp 1 := by positivity
      rw [div_mul_eq_mul_div, div_lt_iff₀ hepos]
      nlinarith
    have hprob40 : (calculateChurnPrediction ⟨0, 0, 0, 0, 0, 0, 0, 40⟩ 30).probability <
        1 / 2 := by
      simp only [calculateChurnPrediction]
      have hfl : jsRound (churnProbabilityRaw ⟨0, 0, 0, 0, 0, 0, 0, 40⟩ * 100) < 50 := by
        unfold jsRound
        apply Int.floor_lt.mpr
        push_cast
        linarith
      have h49 : jsRound (churnProbabilityRaw ⟨0, 0, 0, 0, 0, 0, 0, 40⟩ * 100) ≤ (49 : ℤ) := by
        omega
      have hcast : (jsRound (churnProbabilityRaw ⟨0, 0, 0, 0, 0, 0, 0, 40⟩ * 100) : ℝ) ≤ 49 := by
        exact_mod_cast h49
      linarith
    rw [hprob30]
    exact hprob40

/-- C3 amended: holding the other four risk factors fixed, the churn
probability is monotonically non-INCREASING in daysSinceLastActivity (the
risk term is `(30 − days)·0.1`); the unrounded logistic value always lies
strictly between 0 and 1, and the returned two-decimal rounding of it lies
in the closed interval [0, 1]. -/
theorem churn_probability_antitone_in_inactivity (f g : ChurnFeatures) (horizon : ℚ) :
    (f.activityDecline = g.activityDecline → f.scoreDecline = g.scoreDecline →
      f.sessionDropoff = g.sessionDropoff → f.gameAbandonment = g.gameAbandonment →
      f.daysSinceLastActivity ≤ g.daysSinceLastActivity →
      (calculateChurnPrediction g horizon).probability ≤
        (calculateChurnPrediction f horizon).probability) ∧
    0 < churnProbabilityRaw f ∧ churnProbabilityRaw f < 1 ∧
    0 ≤ (calculateChurnPrediction f horizon).probability ∧
    (calculateChurnPrediction f horizon).probability ≤ 1 := by
  have hraw_pos : ∀ h : ChurnFeatures, 0 < churnProbabilityRaw h := by
    intro h
    unfold churnProbabilityRaw
    positivity
  have hraw_lt1 : ∀ h : ChurnFeatures, churnProbabilityRaw h < 1 := by
    intro h
    unfold churnProbabilityRaw
    rw [div_lt_one (by positivity)]
    have := Real.exp_pos (-(churnRiskScore h))
    linarith
  refine ⟨?_, hraw_pos f, hraw_lt1 f, ?_, ?_⟩
  · intro h1 h2 h3 h4 hdays
    have hrisk : churnRiskScore g ≤ churnRiskScore f := by
      unfold churnRiskScore
      rw [h1, h2, h3, h4]
      linarith
    have hraw_le : churnProbabilityRaw g ≤ churnProbabilityRaw f := by
      unfold churnProbabilityRaw
      have hef : Real.exp (-(churnRiskScore f)) ≤ Real.exp (-(churnRiskScore g)) :=
        Real.exp_le_exp.mpr (by linarith)
      have hgpos : (0 : ℝ) < 1 + Real.exp (-(churnRiskScore f)) := by positivity
      exact one_div_le_one_div_of_le hgpos (by linarith)
    simp only [calculateChurnPrediction]
    have hfl : jsRound (churnProbabilityRaw g * 100) ≤ jsRound (churnProbabilityRaw f * 100) := by
      unfold jsRound
      exact Int.floor_mono (by linarith)
    have hc : ((jsRound (churnProbabilityRaw g * 100) : ℤ) : ℝ) ≤
        ((jsRound (churnProbabilityRaw f * 100) : ℤ) : ℝ) := by exact_mod_cast hfl
    linarith
  · simp only [calculateChurnPrediction]
    have h0 : (0 : ℤ) ≤ jsRound (churnProbabilityRaw f * 100) := by
      unfold jsRound
      apply Int.le_floor.mpr
      have := hraw_pos f
      push_cast
      linarith
    have hc : (0 : ℝ) ≤ ((jsRound (churnProbabilityRaw f * 100) : ℤ) : ℝ) := by
      exact_mod_cast h0
    linarith
  · simp only [calculateChurnPrediction]
    have h100 : jsRound (churnProbabilityRaw f * 100) < 101 := by
      unfold jsRound
      apply Int.floor_lt.mpr
      have := hraw_lt1 f
      push_cast
      linarith
    have h100le : jsRound (churnProbabilityRaw f * 100) ≤ (100 : ℤ) := by
      omega
    have hc : ((jsRound (churnProbabilityRaw f * 100) : ℤ) : ℝ) ≤ 100 := by
      exact_mod_cast h100le
    linarith

/-- C3 witness: the antitone theorem applied to the concrete pair of
feature vectors that differ only in daysSinceLastActivity (30 versus
40). -/
theorem churn_probability_antitone_in_inactivity_witness :
    ((⟨0, 0, 0, 0, 0, 0, 0, 30⟩ : ChurnFeatures).daysSinceLastActivity ≤
      (⟨0, 0, 0, 0, 0, 0, 0, 40⟩ : ChurnFeatures).daysSinceLastActivity) ∧
    (calculateChurnPrediction ⟨0, 0, 0, 0, 0, 0, 0, 40⟩ 30).probability ≤
      (calculateChurnPrediction ⟨0, 0, 0, 0, 0, 0, 0, 30⟩ 30).probability :=
  ⟨by norm_num,
    (churn_probability_antitone_in_inactivity ⟨0, 0, 0, 0, 0, 0, 0, 30⟩
      ⟨0, 0, 0, 0, 0, 0, 0, 40⟩ 30).1 rfl rfl rfl rfl (by norm_num)⟩

end PredictionEngine
